import Mathlib

/-!
Shallow embedding of the publishing-pipeline health monitor
(src/pipeline_monitor.py and the manual-recovery endpoint of src/api.py).

Modelling conventions:
* timestamps are natural numbers, durations and latencies are rationals;
* the nondeterminism of the simulated probes and recovery helpers
  (random failure injection) is replaced by explicit oracle arguments;
* the orchestrator state is threaded explicitly; Python methods that
  mutate the monitor become functions MonitorState to MonitorState;
* code that catches all exceptions and converts them to record fields
  is embedded as a total function (it cannot raise by construction).
-/

namespace PipelineMonitor

/-- The PipelineComponent enum of pipeline_monitor.py. -/
inductive PipelineComponent where
  | network
  | validation_service
  | database
  | storage
  | queue
  deriving DecidableEq, Fintype

/-- The HealthStatus enum of pipeline_monitor.py. -/
inductive HealthStatus where
  | healthy
  | degraded
  | down
  | recovering
  deriving DecidableEq, Fintype

/-- The RecoveryAction enum of pipeline_monitor.py. -/
inductive RecoveryAction where
  | reconnect
  | restart_service
  | clear_queue
  | failover
  | manual_intervention
  deriving DecidableEq

/-- The string value of each PipelineComponent enum member. -/
def componentValue : PipelineComponent → String
  | .network => "network"
  | .validation_service => "validation_service"
  | .database => "database"
  | .storage => "storage"
  | .queue => "queue"

/-- The string value of each HealthStatus enum member. -/
def statusValue : HealthStatus → String
  | .healthy => "healthy"
  | .degraded => "degraded"
  | .down => "down"
  | .recovering => "recovering"

/-- Iteration order of the PipelineComponent enum (also the order in which
perform_health_checks gathers the five probes). -/
def componentList : List PipelineComponent :=
  [.network, .validation_service, .database, .storage, .queue]

/-- The HealthCheck dataclass. -/
structure HealthCheck where
  component : PipelineComponent
  status : HealthStatus
  timestamp : ℕ
  latency_ms : Option ℚ := none
  error_message : Option String := none
  metadata : Option (List (String × ℕ)) := none
  deriving DecidableEq

/-- The RecoveryAttempt dataclass. -/
structure RecoveryAttempt where
  attempt_id : String
  component : PipelineComponent
  action : RecoveryAction
  timestamp : ℕ
  success : Bool
  duration_ms : ℚ
  error_message : Option String := none
  metadata : Option (List (String × ℕ)) := none
  deriving DecidableEq

/-- One structured entry of the AuditLogger (log_health_check,
log_failure_detected, log_recovery_attempt, log_alert_triggered). -/
inductive AuditEvent where
  | healthChecked (check : HealthCheck)
  | failureDetected (component : PipelineComponent) (error : String)
  | recoveryAttempted (attempt : RecoveryAttempt)
  | alertTriggered (component : PipelineComponent) (severity : String)
  deriving DecidableEq

/-- The mutable fields of PipelineHealthMonitor. -/
structure MonitorState where
  component_status : PipelineComponent → HealthStatus
  recent_checks : List HealthCheck
  recovery_attempts : List RecoveryAttempt
  total_checks : ℕ
  failed_checks : ℕ
  successful_recoveries : ℕ
  failed_recoveries : ℕ
  audit : List AuditEvent

/-- The constructor of PipelineHealthMonitor: every component healthy,
empty logs, zero counters. -/
def initState : MonitorState where
  component_status := fun _ => .healthy
  recent_checks := []
  recovery_attempts := []
  total_checks := 0
  failed_checks := 0
  successful_recoveries := 0
  failed_recoveries := 0
  audit := []

/-- Point update of the component_status mapping
(self.component_status[component] = s). -/
def setStatus (st : MonitorState) (c : PipelineComponent) (s : HealthStatus) :
    MonitorState :=
  { st with component_status := fun x => if x = c then s else st.component_status x }

/-- The _is_auto_recoverable method: component != VALIDATION_SERVICE. -/
def _is_auto_recoverable (c : PipelineComponent) : Bool :=
  c != PipelineComponent.validation_service

/-- The recovery_map dict literal inside attempt_recovery. -/
def recovery_map : PipelineComponent → Option RecoveryAction
  | .network => some .reconnect
  | .validation_service => some .restart_service
  | .database => some .reconnect
  | .storage => some .failover
  | .queue => some .clear_queue

/-- recovery_map.get(component, RecoveryAction.MANUAL_INTERVENTION). -/
def recoveryActionFor (c : PipelineComponent) : RecoveryAction :=
  (recovery_map c).getD RecoveryAction.manual_intervention

/-- The action dispatch inside the try block of attempt_recovery: the four
simulated helpers (_reconnect, _restart_service, _clear_queue, _failover)
succeed or raise according to the oracle that replaces their random draw;
the else branch raises "Manual intervention required" unconditionally. -/
def execAction : RecoveryAction → Bool → Except String Unit
  | .reconnect, ok => if ok then .ok () else .error "Reconnection failed"
  | .restart_service, ok => if ok then .ok () else .error "Service restart failed"
  | .clear_queue, ok => if ok then .ok () else .error "Queue clear failed"
  | .failover, ok => if ok then .ok () else .error "Failover failed"
  | .manual_intervention, _ => .error "Manual intervention required"

/-- attempt_id = f-string of component value and timestamp. -/
def mkAttemptId (c : PipelineComponent) (ts : ℕ) : String :=
  componentValue c ++ "_" ++ toString ts

/-- First effect of attempt_recovery:
self.component_status[component] = HealthStatus.RECOVERING. -/
def attemptRecoveryStart (st : MonitorState) (c : PipelineComponent) :
    MonitorState :=
  setStatus st c .recovering

/-- Remainder of attempt_recovery after the status was set to recovering:
dispatch the mapped action; on success build a successful RecoveryAttempt,
set status healthy, bump successful_recoveries; on any raised error build a
failed RecoveryAttempt carrying the message, set status down, bump
failed_recoveries; in both branches append the attempt to
recovery_attempts and log it to the audit trail. -/
def attemptRecoveryRest (st : MonitorState) (c : PipelineComponent)
    (ts : ℕ) (dur : ℚ) (ok : Bool) : RecoveryAttempt × MonitorState :=
  let action := recoveryActionFor c
  match execAction action ok with
  | .ok _ =>
    let att : RecoveryAttempt :=
      { attempt_id := mkAttemptId c ts
        component := c
        action := action
        timestamp := ts
        success := true
        duration_ms := dur
        error_message := none
        metadata := some [("retries", 1)] }
    let st1 := setStatus st c .healthy
    (att, { st1 with
              successful_recoveries := st1.successful_recoveries + 1
              recovery_attempts := st1.recovery_attempts ++ [att]
              audit := st1.audit ++ [.recoveryAttempted att] })
  | .error e =>
    let att : RecoveryAttempt :=
      { attempt_id := mkAttemptId c ts
        component := c
        action := action
        timestamp := ts
        success := false
        duration_ms := dur
        error_message := some e
        metadata := none }
    let st1 := setStatus st c .down
    (att, { st1 with
              failed_recoveries := st1.failed_recoveries + 1
              recovery_attempts := st1.recovery_attempts ++ [att]
              audit := st1.audit ++ [.recoveryAttempted att] })

/-- The attempt_recovery method: set status to recovering, then run the
mapped action and record the outcome.  The Python method wraps everything
in try/except, so it is total: it returns the RecoveryAttempt and the
updated state and never raises. -/
def attempt_recovery (st : MonitorState) (c : PipelineComponent)
    (ts : ℕ) (dur : ℚ) (ok : Bool) : RecoveryAttempt × MonitorState :=
  attemptRecoveryRest (attemptRecoveryStart st c) c ts dur ok

/-- Python list slicing xs[-n:]: the last n elements of a list. -/
def lastN {α : Type} (n : ℕ) (xs : List α) : List α :=
  xs.drop (xs.length - n)

/-- The reduced failure record built by get_pipeline_status for each
non-healthy recent check: component value, timestamp, error message. -/
structure FailureSummary where
  component : String
  timestamp : ℕ
  error : Option String
  deriving DecidableEq

/-- The PipelineStatus dataclass. -/
structure PipelineStatus where
  overall_status : HealthStatus
  components : List (String × String)
  last_check : ℕ
  uptime_percentage : ℚ
  recent_failures : List FailureSummary
  suggested_actions : List String
  is_auto_recoverable : Bool

/-- The overall-status cascade at the top of get_pipeline_status. -/
def overallOf (status : PipelineComponent → HealthStatus) : HealthStatus :=
  let statuses := componentList.map status
  if statuses.any (fun s => s == HealthStatus.down) then .down
  else if statuses.any (fun s => s == HealthStatus.degraded) then .degraded
  else if statuses.any (fun s => s == HealthStatus.recovering) then .recovering
  else .healthy

/-- The uptime expression of get_pipeline_status:
(total - failed) / total * 100 when total > 0, else 100.0. -/
def uptimeOf (total failed : ℕ) : ℚ :=
  if total > 0 then ((total : ℚ) - (failed : ℚ)) / (total : ℚ) * 100 else 100

/-- The recent_failures comprehension of get_pipeline_status: slice the
last 10 recent checks, keep those with status not healthy, reduce each to
component value, timestamp and error message. -/
def recentFailuresOf (recent : List HealthCheck) : List FailureSummary :=
  ((lastN 10 recent).filter fun ch => ch.status != HealthStatus.healthy).map
    fun ch =>
      { component := componentValue ch.component
        timestamp := ch.timestamp
        error := ch.error_message }

/-- The per-component guidance text of _generate_suggested_actions. -/
def suggestedActionFor : PipelineComponent → String
  | .network => "⚠️ Network is down. Check internet connectivity and firewall rules."
  | .validation_service => "⚠️ Validation service crashed. Contact engineering to restart service."
  | .database => "⚠️ Database connection lost. Check DB server status and credentials."
  | .storage => "⚠️ Storage unavailable. Verify storage service and check disk space."
  | .queue => "⚠️ Message queue down. Check queue broker and clear stuck messages."

/-- The _generate_suggested_actions method: one line per down component in
enum order, or the all-operational line when none is down. -/
def _generate_suggested_actions (status : PipelineComponent → HealthStatus) :
    List String :=
  let actions :=
    (componentList.filter fun c => status c == HealthStatus.down).map
      suggestedActionFor
  if actions.isEmpty then ["✅ All systems operational. No action needed."]
  else actions

/-- The is_auto_recoverable expression of get_pipeline_status: every
currently non-healthy component is auto-recoverable. -/
def autoRecoverableFlag (status : PipelineComponent → HealthStatus) : Bool :=
  (componentList.filter fun c => status c != HealthStatus.healthy).all
    _is_auto_recoverable

/-- The get_pipeline_status method (pure query over the state; last_check
is datetime.now(), modelled as the extra argument now). -/
def get_pipeline_status (st : MonitorState) (now : ℕ) : PipelineStatus where
  overall_status := overallOf st.component_status
  components :=
    componentList.map fun c => (componentValue c, statusValue (st.component_status c))
  last_check := now
  uptime_percentage := uptimeOf st.total_checks st.failed_checks
  recent_failures := recentFailuresOf st.recent_checks
  suggested_actions := _generate_suggested_actions st.component_status
  is_auto_recoverable := autoRecoverableFlag st.component_status

/-- Behaviour of one probe call in one cycle, replacing the random draws
of the five check methods: either the coroutine itself raises (possible
for substituted probes; asyncio.gather with return_exceptions collects the
exception), or it returns a healthy result with a latency, or it returns a
down result with an error message.  The real check methods convert their
own internal faults to down results, so they never take the raises case. -/
inductive ProbeBehavior where
  | raises (e : String)
  | healthyResult (lat : ℚ) (ts : ℕ)
  | downResult (err : String) (ts : ℕ)

/-- The metadata each check method attaches to a healthy result. -/
def probeMetadata : PipelineComponent → Option (List (String × ℕ))
  | .network => none
  | .validation_service => some [("active_validations", 5)]
  | .database => some [("active_connections", 10), ("pool_size", 20)]
  | .storage => some [("disk_usage_percent", 65)]
  | .queue => some [("pending_messages", 42)]

/-- One check method (check_network, ..., check_queue): builds the
HealthCheck for its own component from the probe behaviour. -/
def runProbe (c : PipelineComponent) (b : ProbeBehavior) :
    Except String HealthCheck :=
  match b with
  | .raises e => .error e
  | .healthyResult lat ts =>
      .ok { component := c
            status := .healthy
            timestamp := ts
            latency_ms := some lat
            metadata := probeMetadata c }
  | .downResult err ts =>
      .ok { component := c
            status := .down
            timestamp := ts
            error_message := some err }

/-- The perform_health_checks method: gather the five probes in enum
order (return_exceptions=True keeps raised exceptions in the list), keep
only the HealthCheck results, and log each kept result to the audit trail
once, in order. -/
def perform_health_checks (st : MonitorState)
    (probes : PipelineComponent → ProbeBehavior) :
    List HealthCheck × MonitorState :=
  let gathered := componentList.map fun c => runProbe c (probes c)
  let results := gathered.filterMap fun r => r.toOption
  (results, { st with audit := st.audit ++ results.map AuditEvent.healthChecked })

/-- The body of the failure branch of the monitor loop for one check with
status not healthy, followed by the optional auto-recovery: bump
failed_checks, log the detected failure, fire the (default) alert
callback, write the result status into component_status, and when the
component is auto-recoverable run attempt_recovery (recovery outcome
taken from the oracle value ok, timestamp from the position k). -/
def processOneCheck (st : MonitorState) (ch : HealthCheck) (k : ℕ) (ok : Bool) :
    MonitorState :=
  if ch.status == HealthStatus.healthy then st
  else
    let st1 :=
      { st with
          failed_checks := st.failed_checks + 1
          audit := st.audit ++
            [.failureDetected ch.component (ch.error_message.getD "Unknown error"),
             .alertTriggered ch.component
               (if ch.status == HealthStatus.down then "CRITICAL" else "WARNING")] }
    let st2 := setStatus st1 ch.component ch.status
    if _is_auto_recoverable ch.component then
      (attempt_recovery st2 ch.component k 0 ok).2
    else st2

/-- The for-loop over checks in one iteration of monitor_loop; k numbers
the checks so each potential recovery reads its own oracle value. -/
def processChecks (st : MonitorState) (checks : List HealthCheck)
    (orc : ℕ → Bool) (k : ℕ) : MonitorState :=
  match checks with
  | [] => st
  | ch :: rest => processChecks (processOneCheck st ch k (orc k)) rest orc (k + 1)

/-- One iteration of monitor_loop after the checks are collected: add the
number of results to total_checks, extend recent_checks and truncate it to
the last 100 entries, then process every check in order. -/
def monitorCycle (st : MonitorState) (checks : List HealthCheck)
    (orc : ℕ → Bool) : MonitorState :=
  let st1 :=
    { st with
        total_checks := st.total_checks + checks.length
        recent_checks := lastN 100 (st.recent_checks ++ checks) }
  processChecks st1 checks orc 0

/-- One full iteration of monitor_loop: perform the health checks, then
run the cycle body on the collected results. -/
def fullCycle (st : MonitorState) (probes : PipelineComponent → ProbeBehavior)
    (orc : ℕ → Bool) : MonitorState :=
  let pr := perform_health_checks st probes
  monitorCycle pr.2 pr.1 orc

/-- A run of the monitor loop: fold full cycles, each with its own probe
behaviours and recovery oracle, over an initial state. -/
def runLoop (st : MonitorState)
    (script : List ((PipelineComponent → ProbeBehavior) × (ℕ → Bool))) :
    MonitorState :=
  match script with
  | [] => st
  | step :: rest => runLoop (fullCycle st step.1 step.2) rest

/-- The result of the manual-recovery endpoint trigger_recovery of
src/api.py, as seen by the caller: a rejection of an invalid name, the
already-healthy short circuit, or the outcome of an invoked recovery. -/
inductive TriggerResult where
  | rejected (detail : String)
  | alreadyHealthy (message : String)
  | attempted (att : RecoveryAttempt)
  deriving DecidableEq

/-- PipelineComponent(component): parse a string against the enum values. -/
def parseComponent (s : String) : Option PipelineComponent :=
  componentList.find? fun c => componentValue c == s

/-- Detail text of the invalid-component rejection of trigger_recovery. -/
def invalidComponentDetail : String :=
  "Invalid component. Must be one of: network, validation_service, database, storage, queue"

/-- The trigger_recovery endpoint of src/api.py: validate the name
against the enum, short-circuit with a success message when the component
is already healthy, otherwise invoke attempt_recovery on the monitor and
report its outcome. -/
def trigger_recovery (s : String) (st : MonitorState) (ts : ℕ) (dur : ℚ)
    (ok : Bool) : TriggerResult × MonitorState :=
  match parseComponent s with
  | none => (.rejected invalidComponentDetail, st)
  | some c =>
    if st.component_status c == HealthStatus.healthy then
      (.alreadyHealthy (s ++ " is already healthy"), st)
    else
      let pr := attempt_recovery st c ts dur ok
      (.attempted pr.1, pr.2)

/-! ## Spec-side definitions (formalisations of the spec text, for
refinement comparisons against the code-side definitions above) -/

/-- Modelled from the spec: overall status is down if any component is
down, else degraded if any is degraded, else recovering if any is
recovering, else healthy (precedence down > degraded > recovering >
healthy), quantifying over the whole component set. -/
def overallSpec (status : PipelineComponent → HealthStatus) : HealthStatus :=
  if ∃ c, status c = HealthStatus.down then .down
  else if ∃ c, status c = HealthStatus.degraded then .degraded
  else if ∃ c, status c = HealthStatus.recovering then .recovering
  else .healthy

/-- Helper for exhaustive case analysis over status assignments: the
function determined by its five values. -/
def mkStatusFn (s1 s2 s3 s4 s5 : HealthStatus) :
    PipelineComponent → HealthStatus
  | .network => s1
  | .validation_service => s2
  | .database => s3
  | .storage => s4
  | .queue => s5

lemma overallOf_eq_spec_tuple :
    ∀ s1 s2 s3 s4 s5, overallOf (mkStatusFn s1 s2 s3 s4 s5) =
      overallSpec (mkStatusFn s1 s2 s3 s4 s5) := by
  decide

lemma component_status_eta (st : MonitorState) :
    st.component_status =
      mkStatusFn (st.component_status .network)
        (st.component_status .validation_service)
        (st.component_status .database)
        (st.component_status .storage)
        (st.component_status .queue) := by
  funext x
  cases x <;> rfl

/-! ## Claim theorems -/

/-- C3: for every assignment of the four statuses to the five components,
get_pipeline_status reports overall_status down if any component is down,
else degraded if any is degraded, else recovering if any is recovering,
else healthy — the fixed precedence down > degraded > recovering >
healthy. -/
theorem overall_status_precedence (st : MonitorState) (now : ℕ) :
    (get_pipeline_status st now).overall_status = overallSpec st.component_status := by
  show overallOf st.component_status = overallSpec st.component_status
  rw [component_status_eta st]
  exact overallOf_eq_spec_tuple _ _ _ _ _

/-- C7: _is_auto_recoverable is a pure predicate on the fixed component
set: false on validation_service and true on each of the other four
components. -/
theorem auto_recoverable_policy :
    _is_auto_recoverable PipelineComponent.validation_service = false ∧
    ∀ c : PipelineComponent,
      _is_auto_recoverable c = decide (c ≠ PipelineComponent.validation_service) := by
  decide

/-- C6: for every pair of counters with total_checks at least
failed_checks, the uptime percentage reported by get_pipeline_status is
(total - failed) / total * 100, and 100 when total_checks is zero; at
total_checks = 100 and failed_checks = 5 it is exactly 95. -/
theorem uptime_percentage_spec (st : MonitorState) (now : ℕ)
    (_h : st.failed_checks ≤ st.total_checks) :
    (get_pipeline_status st now).uptime_percentage =
      (if st.total_checks = 0 then (100 : ℚ)
       else ((st.total_checks : ℚ) - (st.failed_checks : ℚ)) /
         (st.total_checks : ℚ) * 100) ∧
    uptimeOf 100 5 = 95 := by
  refine ⟨?_, by norm_num [uptimeOf]⟩
  show uptimeOf st.total_checks st.failed_checks = _
  rcases Nat.eq_zero_or_pos st.total_checks with h0 | h0
  · simp [uptimeOf, h0]
  · rw [uptimeOf, if_pos h0, if_neg (Nat.pos_iff_ne_zero.mp h0)]

/-- Concrete monitor state with 100 total checks and 5 failed checks. -/
def stHundred : MonitorState :=
  { initState with total_checks := 100, failed_checks := 5 }

/-- Witness for C6 at total_checks = 100, failed_checks = 5. -/
theorem uptime_percentage_spec_witness :
    stHundred.failed_checks ≤ stHundred.total_checks ∧
    ((get_pipeline_status stHundred 0).uptime_percentage =
      (if stHundred.total_checks = 0 then (100 : ℚ)
       else ((stHundred.total_checks : ℚ) - (stHundred.failed_checks : ℚ)) /
         (stHundred.total_checks : ℚ) * 100) ∧
     uptimeOf 100 5 = 95) :=
  ⟨by decide, uptime_percentage_spec stHundred 0 (by decide)⟩

/-- C9: the recent_failures field of get_pipeline_status is exactly the
last-10 slice of the recent-checks log, restricted to entries whose
status is not healthy, each reduced to component, timestamp and error. -/
theorem recent_failures_spec (st : MonitorState) (now : ℕ) :
    (get_pipeline_status st now).recent_failures =
      (((st.recent_checks.reverse.take 10).reverse.filter
          fun ch => ch.status != HealthStatus.healthy).map
        fun ch =>
          { component := componentValue ch.component
            timestamp := ch.timestamp
            error := ch.error_message : FailureSummary }) := by
  show recentFailuresOf st.recent_checks = _
  rw [recentFailuresOf, lastN, List.take_reverse, List.reverse_reverse]

/-- C2: attempt_recovery first sets the component status to recovering,
then either succeeds (status healthy, successful_recoveries incremented by
one) or fails (status down, failed_recoveries incremented by one, error
message recorded), appends exactly one RecoveryAttempt to the recovery
log and one entry to the audit trail per call, and the manual-intervention
branch of the action dispatch always fails.  The embedding of the method
is a total function, matching the try/except that keeps it from raising. -/
theorem attempt_recovery_transitions (st : MonitorState) (c : PipelineComponent)
    (ts : ℕ) (dur : ℚ) (ok : Bool) :
    (attemptRecoveryStart st c).component_status c = HealthStatus.recovering ∧
    attempt_recovery st c ts dur ok =
      attemptRecoveryRest (attemptRecoveryStart st c) c ts dur ok ∧
    ((attempt_recovery st c ts dur ok).1.success = true →
      (attempt_recovery st c ts dur ok).2.component_status c = HealthStatus.healthy ∧
      (attempt_recovery st c ts dur ok).2.successful_recoveries =
        st.successful_recoveries + 1 ∧
      (attempt_recovery st c ts dur ok).2.failed_recoveries = st.failed_recoveries) ∧
    ((attempt_recovery st c ts dur ok).1.success = false →
      (attempt_recovery st c ts dur ok).2.component_status c = HealthStatus.down ∧
      (attempt_recovery st c ts dur ok).2.failed_recoveries = st.failed_recoveries + 1 ∧
      (attempt_recovery st c ts dur ok).2.successful_recoveries =
        st.successful_recoveries ∧
      ∃ e, execAction (recoveryActionFor c) ok = Except.error e ∧
        (attempt_recovery st c ts dur ok).1.error_message = some e) ∧
    (attempt_recovery st c ts dur ok).2.recovery_attempts =
      st.recovery_attempts ++ [(attempt_recovery st c ts dur ok).1] ∧
    (attempt_recovery st c ts dur ok).2.audit =
      st.audit ++ [AuditEvent.recoveryAttempted (attempt_recovery st c ts dur ok).1] ∧
    ∀ b, execAction RecoveryAction.manual_intervention b =
      Except.error "Manual intervention required" := by
  have hman : ∀ b, execAction RecoveryAction.manual_intervention b =
      Except.error "Manual intervention required" := fun _ => rfl
  cases h : execAction (recoveryActionFor c) ok <;>
    simp [attempt_recovery, attemptRecoveryRest, attemptRecoveryStart, setStatus,
      h, hman]

/-- Witness for C2: a failed recovery of the network component from the
initial state (oracle false makes the reconnect raise). -/
theorem attempt_recovery_transitions_witness :
    (attempt_recovery initState PipelineComponent.network 0 0 false).2.component_status
        PipelineComponent.network = HealthStatus.down ∧
    (attempt_recovery initState PipelineComponent.network 0 0 false).2.failed_recoveries =
      initState.failed_recoveries + 1 ∧
    (attempt_recovery initState PipelineComponent.network 0 0 false).2.successful_recoveries =
      initState.successful_recoveries ∧
    ∃ e, execAction (recoveryActionFor PipelineComponent.network) false = Except.error e ∧
      (attempt_recovery initState PipelineComponent.network 0 0 false).1.error_message =
        some e :=
  (attempt_recovery_transitions initState PipelineComponent.network 0 0 false).2.2.2.1
    (by decide)

/-- Discriminator of the probe behaviour that models a raising probe. -/
def ProbeBehavior.isRaises : ProbeBehavior → Bool
  | .raises _ => true
  | .healthyResult _ _ => false
  | .downResult _ _ => false

lemma runProbe_ok_component {c : PipelineComponent} {b : ProbeBehavior}
    {hc : HealthCheck} (h : (runProbe c b).toOption = some hc) :
    hc.component = c := by
  cases b <;> simp [runProbe, Except.toOption] at h <;> simp [← h]

lemma runProbe_ok_not_raises {c : PipelineComponent} {b : ProbeBehavior}
    {hc : HealthCheck} (h : (runProbe c b).toOption = some hc) :
    b.isRaises = false := by
  cases b <;> simp [runProbe, Except.toOption, ProbeBehavior.isRaises] at h ⊢

lemma filterMap_probe_all_ok (probes : PipelineComponent → ProbeBehavior) :
    ∀ l : List PipelineComponent, (∀ c ∈ l, (probes c).isRaises = false) →
      ((l.filterMap fun c => (runProbe c (probes c)).toOption).map
        fun hc => hc.component) = l := by
  intro l
  induction l with
  | nil => intro _; rfl
  | cons c rest ih =>
    intro h
    have hc := h c (List.mem_cons_self c rest)
    have hrest := fun x hx => h x (List.mem_cons_of_mem c hx)
    cases hb : probes c with
    | raises e => rw [hb] at hc; simp [ProbeBehavior.isRaises] at hc
    | healthyResult lat ts =>
      simp only [List.filterMap_cons, hb, runProbe, Except.toOption, List.map_cons]
      exact congrArg _ (ih hrest)
    | downResult err ts =>
      simp only [List.filterMap_cons, hb, runProbe, Except.toOption, List.map_cons]
      exact congrArg _ (ih hrest)

lemma filterMap_probe_comp_sublist (probes : PipelineComponent → ProbeBehavior) :
    ∀ l : List PipelineComponent,
      List.Sublist
        ((l.filterMap fun c => (runProbe c (probes c)).toOption).map
          fun hc => hc.component) l := by
  intro l
  induction l with
  | nil => exact List.Sublist.refl []
  | cons c rest ih =>
    cases hb : probes c with
    | raises e =>
      simp only [List.filterMap_cons, hb, runProbe, Except.toOption]
      exact List.Sublist.cons c ih
    | healthyResult lat ts =>
      simp only [List.filterMap_cons, hb, runProbe, Except.toOption, List.map_cons]
      exact List.Sublist.cons₂ c ih
    | downResult err ts =>
      simp only [List.filterMap_cons, hb, runProbe, Except.toOption, List.map_cons]
      exact List.Sublist.cons₂ c ih

lemma perform_health_checks_results (st : MonitorState)
    (probes : PipelineComponent → ProbeBehavior) :
    (perform_health_checks st probes).1 =
      componentList.filterMap fun c => (runProbe c (probes c)).toOption := by
  show (componentList.map fun c => runProbe c (probes c)).filterMap
      (fun r => r.toOption) = _
  rw [List.filterMap_map]
  rfl

/-- C5: perform_health_checks returns exactly one result per probe
covering every component exactly once when no probe raises; a raising
probe contributes no result at all; and every returned result is recorded
to the audit trail exactly once, in order. -/
theorem perform_health_checks_spec (st : MonitorState)
    (probes : PipelineComponent → ProbeBehavior) :
    ((∀ c, (probes c).isRaises = false) →
      ((perform_health_checks st probes).1.map fun hc => hc.component) =
        componentList) ∧
    componentList.Nodup ∧
    (∀ hc ∈ (perform_health_checks st probes).1,
      (probes hc.component).isRaises = false) ∧
    (perform_health_checks st probes).2.audit =
      st.audit ++ ((perform_health_checks st probes).1.map AuditEvent.healthChecked) ∧
    (∀ hc ∈ (perform_health_checks st probes).1,
      (perform_health_checks st probes).1.count hc = 1) := by
  have hres := perform_health_checks_results st probes
  have hnodupmap :
      ((perform_health_checks st probes).1.map fun hc => hc.component).Nodup := by
    rw [hres]
    exact (filterMap_probe_comp_sublist probes componentList).nodup (by decide)
  refine ⟨?_, by decide, ?_, rfl, ?_⟩
  · intro h
    rw [hres]
    exact filterMap_probe_all_ok probes componentList fun c _ => h c
  · intro hc hmem
    rw [hres] at hmem
    rcases List.mem_filterMap.mp hmem with ⟨c, _, hsome⟩
    rw [runProbe_ok_component hsome]
    exact runProbe_ok_not_raises hsome
  · intro hc hmem
    exact List.count_eq_one_of_mem (List.Nodup.of_map _ hnodupmap) hmem

/-- Probe behaviours where every probe completes with a healthy result. -/
def healthyProbes : PipelineComponent → ProbeBehavior :=
  fun _ => ProbeBehavior.healthyResult 1 0

/-- Witness for C5: with no raising probe, the five results cover the
component list in order. -/
theorem perform_health_checks_spec_witness :
    ((perform_health_checks initState healthyProbes).1.map fun hc => hc.component) =
      componentList :=
  (perform_health_checks_spec initState healthyProbes).1 fun _ => rfl

/-- C8: the manual-recovery endpoint validates the supplied name against
the fixed five-element component set (the parse fails exactly when the
name is not the value of any component) and rejects every unknown name
with a caller-visible error, leaving the state untouched; and for a
component whose current status is healthy it returns the already-healthy
success without invoking the recovery path and without changing any
orchestrator state. -/
theorem trigger_recovery_validation (s : String) (st : MonitorState)
    (ts : ℕ) (dur : ℚ) (ok : Bool) :
    (parseComponent s = none ↔ ∀ c : PipelineComponent, componentValue c ≠ s) ∧
    (parseComponent s = none →
      (trigger_recovery s st ts dur ok).1 =
        TriggerResult.rejected invalidComponentDetail ∧
      (trigger_recovery s st ts dur ok).2 = st) ∧
    (∀ c, parseComponent s = some c →
      st.component_status c = HealthStatus.healthy →
      (trigger_recovery s st ts dur ok).1 =
        TriggerResult.alreadyHealthy (s ++ " is already healthy") ∧
      (trigger_recovery s st ts dur ok).2 = st) := by
  refine ⟨?_, ?_, ?_⟩
  · rw [parseComponent, List.find?_eq_none]
    constructor
    · intro h c
      have := h c (by cases c <;> decide)
      simpa using this
    · intro h c _
      simpa using h c
  · intro h
    simp [trigger_recovery, h]
  · intro c hc hh
    simp [trigger_recovery, hc, hh]

/-- Witness for C8: the unknown name publisher is rejected without a
state change, and a request for the healthy network component
short-circuits without a state change. -/
theorem trigger_recovery_validation_witness :
    ((trigger_recovery "publisher" initState 0 0 true).1 =
        TriggerResult.rejected invalidComponentDetail ∧
      (trigger_recovery "publisher" initState 0 0 true).2 = initState) ∧
    ((trigger_recovery "network" initState 0 0 true).1 =
        TriggerResult.alreadyHealthy ("network" ++ " is already healthy") ∧
      (trigger_recovery "network" initState 0 0 true).2 = initState) :=
  ⟨(trigger_recovery_validation "publisher" initState 0 0 true).2.1 (by decide),
   (trigger_recovery_validation "network" initState 0 0 true).2.2
     PipelineComponent.network (by decide) rfl⟩

/-- A monitor state in which the network component is currently in the
recovering status (an attempt is in flight). -/
def stRecoveringNet : MonitorState :=
  setStatus initState PipelineComponent.network HealthStatus.recovering

/-- C4 evaluation: a manual recovery request for a component whose
current status is recovering is neither rejected nor queued — the
endpoint proceeds to invoke attempt_recovery, appending a second attempt
for the same component while the first is still in flight. -/
theorem trigger_recovery_while_recovering :
    stRecoveringNet.component_status PipelineComponent.network =
      HealthStatus.recovering ∧
    (trigger_recovery "network" stRecoveringNet 0 0 true).2.recovery_attempts.length =
      stRecoveringNet.recovery_attempts.length + 1 ∧
    (trigger_recovery "network" stRecoveringNet 0 0 true).1 =
      TriggerResult.attempted
        (attempt_recovery stRecoveringNet PipelineComponent.network 0 0 true).1 := by
  refine ⟨rfl, ?_, rfl⟩
  decide

/-! ## Projection lemmas for attempt_recovery and the loop body -/

lemma attempt_recovery_recent (st : MonitorState) (c : PipelineComponent)
    (ts : ℕ) (dur : ℚ) (ok : Bool) :
    (attempt_recovery st c ts dur ok).2.recent_checks = st.recent_checks := by
  cases h : execAction (recoveryActionFor c) ok <;>
    simp [attempt_recovery, attemptRecoveryRest, attemptRecoveryStart, setStatus, h]

lemma attempt_recovery_attempts (st : MonitorState) (c : PipelineComponent)
    (ts : ℕ) (dur : ℚ) (ok : Bool) :
    (attempt_recovery st c ts dur ok).2.recovery_attempts =
      st.recovery_attempts ++ [(attempt_recovery st c ts dur ok).1] := by
  cases h : execAction (recoveryActionFor c) ok <;>
    simp [attempt_recovery, attemptRecoveryRest, attemptRecoveryStart, setStatus, h]

lemma attempt_recovery_component (st : MonitorState) (c : PipelineComponent)
    (ts : ℕ) (dur : ℚ) (ok : Bool) :
    (attempt_recovery st c ts dur ok).1.component = c := by
  cases h : execAction (recoveryActionFor c) ok <;>
    simp [attempt_recovery, attemptRecoveryRest, attemptRecoveryStart, h]

lemma attempt_recovery_status_self (st : MonitorState) (c : PipelineComponent)
    (ts : ℕ) (dur : ℚ) (ok : Bool) :
    (attempt_recovery st c ts dur ok).2.component_status c =
      (if (attempt_recovery st c ts dur ok).1.success then HealthStatus.healthy
       else HealthStatus.down) := by
  cases h : execAction (recoveryActionFor c) ok <;>
    simp [attempt_recovery, attemptRecoveryRest, attemptRecoveryStart, setStatus, h]

lemma attempt_recovery_status_other (st : MonitorState) (c : PipelineComponent)
    (ts : ℕ) (dur : ℚ) (ok : Bool) (x : PipelineComponent) (hx : x ≠ c) :
    (attempt_recovery st c ts dur ok).2.component_status x =
      st.component_status x := by
  cases h : execAction (recoveryActionFor c) ok <;>
    simp [attempt_recovery, attemptRecoveryRest, attemptRecoveryStart, setStatus, h, hx]

lemma processOneCheck_recent (s : MonitorState) (ch : HealthCheck) (k : ℕ)
    (ok : Bool) :
    (processOneCheck s ch k ok).recent_checks = s.recent_checks := by
  by_cases hh : ch.status = HealthStatus.healthy
  · simp [processOneCheck, hh]
  · cases har : _is_auto_recoverable ch.component <;>
      simp [processOneCheck, hh, har, setStatus, attempt_recovery_recent]

/-- One step of the check-processing loop, seen from a fixed component c:
the recovery log only grows, every appended attempt targets an
auto-recoverable component, the status of c can become healthy only via a
successful appended attempt for c, and a step whose check does not report
c as non-healthy leaves the status of c unchanged. -/
lemma processOneCheck_step (s : MonitorState) (ch : HealthCheck) (k : ℕ)
    (ok : Bool) (c : PipelineComponent) :
    ∃ t, (processOneCheck s ch k ok).recovery_attempts = s.recovery_attempts ++ t ∧
      (∀ att ∈ t, _is_auto_recoverable att.component = true) ∧
      ((processOneCheck s ch k ok).component_status c = HealthStatus.healthy →
        s.component_status c = HealthStatus.healthy ∨
        ∃ att ∈ t, att.component = c ∧ att.success = true) ∧
      ((ch.component ≠ c ∨ ch.status = HealthStatus.healthy) →
        (processOneCheck s ch k ok).component_status c = s.component_status c) := by
  by_cases hh : ch.status = HealthStatus.healthy
  · exact ⟨[], by simp [processOneCheck, hh], by simp,
      fun h => Or.inl (by simpa [processOneCheck, hh] using h),
      fun _ => by simp [processOneCheck, hh]⟩
  · cases har : _is_auto_recoverable ch.component with
    | false =>
      refine ⟨[], by simp [processOneCheck, hh, har, setStatus], by simp, ?_, ?_⟩
      · intro h
        by_cases hc : c = ch.component
        · exfalso
          apply hh
          simp [processOneCheck, hh, har, setStatus, hc] at h
        · exact Or.inl (by simpa [processOneCheck, hh, har, setStatus, hc] using h)
      · intro hside
        rcases hside with hne | ht
        · have hc : ¬ c = ch.component := fun h => hne h.symm
          simp [processOneCheck, hh, har, setStatus, hc]
        · exact absurd ht hh
    | true =>
      set st1 : MonitorState :=
        { s with
            failed_checks := s.failed_checks + 1
            audit := s.audit ++
              [.failureDetected ch.component (ch.error_message.getD "Unknown error"),
               .alertTriggered ch.component
                 (if ch.status == HealthStatus.down then "CRITICAL" else "WARNING")] }
        with hst1
      have hrun : processOneCheck s ch k ok =
          (attempt_recovery (setStatus st1 ch.component ch.status) ch.component k 0 ok).2 := by
        simp [processOneCheck, hh, har, hst1]
      set st2 := setStatus st1 ch.component ch.status with hst2
      set pr := attempt_recovery st2 ch.component k 0 ok with hpr
      refine ⟨[pr.1], ?_, ?_, ?_, ?_⟩
      · rw [hrun]
        have := attempt_recovery_attempts st2 ch.component k 0 ok
        rw [← hpr] at this
        simpa [hst2, setStatus, hst1] using this
      · intro att hmem
        rcases List.mem_singleton.mp hmem with rfl
        rw [hpr, attempt_recovery_component]
        exact har
      · intro h
        by_cases hc : c = ch.component
        · subst hc
          rw [hrun] at h
          rw [attempt_recovery_status_self] at h
          by_cases hsucc : pr.1.success = true
          · exact Or.inr ⟨pr.1, List.mem_singleton_self _,
              by rw [hpr, attempt_recovery_component], hsucc⟩
          · rw [← hpr] at h
            simp [hsucc] at h
        · rw [hrun, attempt_recovery_status_other _ _ _ _ _ _ hc] at h
          rw [hst2, setStatus] at h
          simp [hc, hst1] at h
          exact Or.inl h
      · intro hside
        rcases hside with hne | ht
        · have hc : ¬ c = ch.component := fun h => hne h.symm
          rw [hrun, attempt_recovery_status_other _ _ _ _ _ _ hc]
          simp [hst2, setStatus, hc, hst1]
        · exact absurd ht hh

lemma processChecks_recent :
    ∀ (checks : List HealthCheck) (s : MonitorState) (orc : ℕ → Bool) (k : ℕ),
      (processChecks s checks orc k).recent_checks = s.recent_checks := by
  intro checks
  induction checks with
  | nil => intro s orc k; rfl
  | cons ch rest ih =>
    intro s orc k
    show (processChecks (processOneCheck s ch k (orc k)) rest orc (k + 1)).recent_checks = _
    rw [ih, processOneCheck_recent]

/-- The check-processing loop, seen from a fixed component c: the
recovery log only grows; all appended attempts target auto-recoverable
components; the status of c turns healthy only via a successful appended
attempt for c; and when no check in the list reports c as non-healthy,
the status of c is left unchanged. -/
lemma processChecks_main (c : PipelineComponent) :
    ∀ (checks : List HealthCheck) (s : MonitorState) (orc : ℕ → Bool) (k : ℕ),
      ∃ t, (processChecks s checks orc k).recovery_attempts =
          s.recovery_attempts ++ t ∧
        (∀ att ∈ t, _is_auto_recoverable att.component = true) ∧
        ((processChecks s checks orc k).component_status c = HealthStatus.healthy →
          s.component_status c = HealthStatus.healthy ∨
          ∃ att ∈ t, att.component = c ∧ att.success = true) ∧
        ((∀ ch ∈ checks, ch.component = c → ch.status = HealthStatus.healthy) →
          (processChecks s checks orc k).component_status c =
            s.component_status c) := by
  intro checks
  induction checks with
  | nil =>
    intro s orc k
    exact ⟨[], by simp [processChecks], by simp, fun h => Or.inl h, fun _ => rfl⟩
  | cons ch rest ih =>
    intro s orc k
    obtain ⟨t1, ha1, hauto1, hst1, hunch1⟩ := processOneCheck_step s ch k (orc k) c
    obtain ⟨t2, ha2, hauto2, hst2, hunch2⟩ :=
      ih (processOneCheck s ch k (orc k)) orc (k + 1)
    refine ⟨t1 ++ t2, ?_, ?_, ?_, ?_⟩
    · show (processChecks (processOneCheck s ch k (orc k)) rest orc (k + 1)).recovery_attempts = _
      rw [ha2, ha1, List.append_assoc]
    · intro att hm
      rcases List.mem_append.mp hm with h | h
      exacts [hauto1 att h, hauto2 att h]
    · intro h
      replace h :
          (processChecks (processOneCheck s ch k (orc k)) rest orc (k + 1)).component_status c =
            HealthStatus.healthy := h
      rcases hst2 h with h1 | ⟨att, hm, hp⟩
      · rcases hst1 h1 with h0 | ⟨att, hm, hp⟩
        · exact Or.inl h0
        · exact Or.inr ⟨att, List.mem_append.mpr (Or.inl hm), hp⟩
      · exact Or.inr ⟨att, List.mem_append.mpr (Or.inr hm), hp⟩
    · intro hall
      show (processChecks (processOneCheck s ch k (orc k)) rest orc (k + 1)).component_status c = _
      rw [hunch2 fun x hx => hall x (List.mem_cons_of_mem ch hx)]
      apply hunch1
      by_cases hc : ch.component = c
      · exact Or.inr (hall ch (List.mem_cons_self ch rest) hc)
      · exact Or.inl hc

lemma lastN_length_le {α : Type} (n : ℕ) (xs : List α) : (lastN n xs).length ≤ n := by
  simp only [lastN, List.length_drop]
  omega

lemma monitorCycle_recent (st : MonitorState) (checks : List HealthCheck)
    (orc : ℕ → Bool) :
    (monitorCycle st checks orc).recent_checks =
      lastN 100 (st.recent_checks ++ checks) := by
  show (processChecks _ checks orc 0).recent_checks = _
  rw [processChecks_recent]

lemma fullCycle_recent (st : MonitorState)
    (probes : PipelineComponent → ProbeBehavior) (orc : ℕ → Bool) :
    (fullCycle st probes orc).recent_checks =
      lastN 100 (st.recent_checks ++ (perform_health_checks st probes).1) := by
  show (monitorCycle (perform_health_checks st probes).2
      (perform_health_checks st probes).1 orc).recent_checks = _
  rw [monitorCycle_recent]
  rfl

/-- C1 corrected: the recent-checks log is truncated to its last 100
entries every cycle (oldest evicted first) and so never exceeds 100
entries on any run from the initial state, while the recovery-attempts
log is append-only but has no retention bound. -/
theorem logs_retention_bounds (st : MonitorState) (checks : List HealthCheck)
    (orc : ℕ → Bool) :
    (monitorCycle st checks orc).recent_checks =
      lastN 100 (st.recent_checks ++ checks) ∧
    (monitorCycle st checks orc).recent_checks.length ≤ 100 ∧
    (∃ t, (monitorCycle st checks orc).recovery_attempts =
      st.recovery_attempts ++ t) ∧
    ∀ script, (runLoop initState script).recent_checks.length ≤ 100 := by
  refine ⟨monitorCycle_recent st checks orc, ?_, ?_, ?_⟩
  · rw [monitorCycle_recent]
    exact lastN_length_le 100 _
  · obtain ⟨t, ht, -, -, -⟩ := processChecks_main PipelineComponent.network checks
      { st with
          total_checks := st.total_checks + checks.length
          recent_checks := lastN 100 (st.recent_checks ++ checks) } orc 0
    exact ⟨t, ht⟩
  · have key : ∀ script (s : MonitorState), s.recent_checks.length ≤ 100 →
        (runLoop s script).recent_checks.length ≤ 100 := by
      intro script
      induction script with
      | nil => intro s h; exact h
      | cons step rest ih =>
        intro s _
        apply ih
        rw [fullCycle_recent]
        exact lastN_length_le 100 _
    exact fun script => key script initState (by decide)

/-- Probe behaviours where every probe completes with a down result. -/
def downProbes : PipelineComponent → ProbeBehavior :=
  fun _ => ProbeBehavior.downResult "probe failure" 0

/-- A run of 26 monitor cycles in which every probe reports down and
every recovery attempt fails. -/
def cexScript : List ((PipelineComponent → ProbeBehavior) × (ℕ → Bool)) :=
  List.replicate 26 (downProbes, fun _ => false)

set_option maxRecDepth 40000 in
/-- C1 counterexample: on this concrete run the recovery-attempts log
holds 104 entries — it exceeds the fixed retention size of 100 that
bounds the recent-checks log (which sits exactly at 100 on the same
run), so the recovery-attempts log is not bounded by the retention
window. -/
theorem recovery_log_exceeds_bound :
    (runLoop initState cexScript).recovery_attempts.length = 104 ∧
    (runLoop initState cexScript).recent_checks.length = 100 ∧
    ¬ (runLoop initState cexScript).recovery_attempts.length ≤ 100 := by
  decide

/-- C10: a component returns to healthy only through a successful
attempt_recovery inside the cycle: if a non-healthy component is healthy
after a cycle, the cycle appended a successful recovery attempt for that
(auto-recoverable) component; a cycle whose results never report the
component as non-healthy does not write its status at all (in particular
a healthy probe result never restores a down component); and the
validation-service component, never auto-recovered, stays non-healthy
across every cycle once it is non-healthy. -/
theorem status_restored_only_by_recovery (st : MonitorState)
    (checks : List HealthCheck) (orc : ℕ → Bool) (c : PipelineComponent) :
    (st.component_status c ≠ HealthStatus.healthy →
      (monitorCycle st checks orc).component_status c = HealthStatus.healthy →
      ∃ t, (monitorCycle st checks orc).recovery_attempts =
          st.recovery_attempts ++ t ∧
        ∃ att ∈ t, att.component = c ∧ att.success = true ∧
          _is_auto_recoverable c = true) ∧
    ((∀ ch ∈ checks, ch.component = c → ch.status = HealthStatus.healthy) →
      (monitorCycle st checks orc).component_status c = st.component_status c) ∧
    (st.component_status PipelineComponent.validation_service ≠ HealthStatus.healthy →
      (monitorCycle st checks orc).component_status PipelineComponent.validation_service ≠
        HealthStatus.healthy) := by
  refine ⟨?_, ?_, ?_⟩
  · intro hne hhe
    obtain ⟨t, ht, hauto, hstat, -⟩ := processChecks_main c checks
      { st with
          total_checks := st.total_checks + checks.length
          recent_checks := lastN 100 (st.recent_checks ++ checks) } orc 0
    rcases hstat hhe with h0 | ⟨att, hm, hcomp, hsucc⟩
    · exact absurd h0 hne
    · exact ⟨t, ht, att, hm, hcomp, hsucc, by rw [← hcomp]; exact hauto att hm⟩
  · intro hall
    obtain ⟨-, -, -, -, hunch⟩ := processChecks_main c checks
      { st with
          total_checks := st.total_checks + checks.length
          recent_checks := lastN 100 (st.recent_checks ++ checks) } orc 0
    exact hunch hall
  · intro hne hhe
    obtain ⟨t, ht, hauto, hstat, -⟩ := processChecks_main
      PipelineComponent.validation_service checks
      { st with
          total_checks := st.total_checks + checks.length
          recent_checks := lastN 100 (st.recent_checks ++ checks) } orc 0
    rcases hstat hhe with h0 | ⟨att, hm, hcomp, -⟩
    · exact hne h0
    · have hat := hauto att hm
      rw [hcomp] at hat
      exact absurd hat (by decide)

/-- A monitor state in which the validation service is currently down. -/
def stDownVS : MonitorState :=
  setStatus initState PipelineComponent.validation_service HealthStatus.down

/-- A probe result reporting the validation service healthy. -/
def healthyVSCheck : HealthCheck :=
  { component := PipelineComponent.validation_service
    status := HealthStatus.healthy
    timestamp := 0 }

/-- Witness for C10: with the validation service down, a cycle whose
only result reports it healthy does not restore it to healthy. -/
theorem status_restored_only_by_recovery_witness :
    (monitorCycle stDownVS [healthyVSCheck] (fun _ => false)).component_status
        PipelineComponent.validation_service ≠ HealthStatus.healthy :=
  (status_restored_only_by_recovery stDownVS [healthyVSCheck] (fun _ => false)
      PipelineComponent.validation_service).2.2 (by decide)

end PipelineMonitor
